import Mathlib

/-!
Verification development for `src/elgato.py` (asyncelgato): an async client
for Elgato lights. We shallowly embed the `ElgatoLight` class as a state
machine over an injected transport, and the discovery coordinator's listening
loop and finalization as pure functions. Network I/O is modelled by a record
of request handlers returning `Except`; each operation additionally returns
the list of requests it issued, so that "exactly one network read" and
"payload sent" are observable.

The two unit converters (`_temperature_to_value`, `_value_to_temperature`)
compute with IEEE-754 floating point (`987007 * temperature ** -0.999`,
`1000000 * value ** -1`); their numeric values have no faithful embedding
over Nat/Int/Rat, so they are kept abstract as a `Converters` parameter:
every claim settled here holds for an arbitrary pair of converter functions.
-/

namespace Elgato

/-- Transport / runtime errors, modelled as message strings. -/
abbrev Err : Type := String

/-- A fully populated light status dict: keys `on`, `brightness`,
`temperature` (Python ints are arbitrary-precision, so `Int`). -/
structure Status where
  «on» : Int
  brightness : Int
  temperature : Int
deriving Repr, DecidableEq

/-- A partial status dict, as built by `set_status` (lines 119-137):
each key is present or absent. -/
structure StatusDict where
  «on» : Option Int
  brightness : Option Int
  temperature : Option Int
deriving Repr, DecidableEq

/-- The write payload of line 138: `{"numberOfLights": 1, "lights": [new_status]}`. -/
structure LightsPayload where
  numberOfLights : Int
  lights : List StatusDict
deriving Repr, DecidableEq

/-- A status read/write response: `{"lights": [{...}, ...]}` (spec wire shape);
temperatures are in device-internal units. -/
structure LightsResponse where
  lights : List Status
deriving Repr, DecidableEq

/-- The static `accessory-info` mapping, modelled as an association list. -/
abbrev InfoDict : Type := List (String × String)

/-- The two unit converters of lines 43-61, kept abstract (see module header):
`t2v` embeds `_temperature_to_value`, `v2t` embeds `_value_to_temperature`. -/
structure Converters where
  t2v : Int → Int
  v2t : Int → Int

/-- A request issued through `_elgato_rest` (lines 63-81). -/
inductive Request where
  /-- `GET /elgato/lights` -/
  | getLights
  /-- `PUT /elgato/lights` with the given payload -/
  | putLights (payload : LightsPayload)
  /-- `GET /elgato/accessory-info` -/
  | getInfo
deriving Repr, DecidableEq

/-- The injected transport collaborator: responses to each request kind. -/
structure Net where
  getLights : Except Err LightsResponse
  putLights : LightsPayload → Except Err LightsResponse
  getInfo : Except Err InfoDict

/-- The state of one `ElgatoLight` (lines 17-37): identity fields assigned in
`__init__` plus the two lazily populated caches. -/
structure LightState where
  address : String
  port : Int
  name : String
  server : String
  _info : Option InfoDict
  _status : Option Status
deriving Repr, DecidableEq

/-- A dict returned to the caller, together with whether the returned Python
object is the very cache object (aliased) or a `.copy()` of it. The flag is
read off the source: `status` returns `self._status.copy()` (line 107). -/
structure DictRet where
  val : Status
  sharesCache : Bool
deriving Repr, DecidableEq

/-- Generic Python semantics of the caller mutating a returned dict in place:
if the returned dict aliases the cache slot, the cache changes with it;
if it was a defensive copy, the handle's state is untouched. -/
def mutateReturned (f : Status → Status) (r : DictRet) (s : LightState) :
    DictRet × LightState :=
  if r.sharesCache then
    ({ r with val := f r.val }, { s with _status := some (f r.val) })
  else
    ({ r with val := f r.val }, s)

/-- `ElgatoLight.info` (lines 83-90): cached `accessory-info`, fetched once. -/
def info (net : Net) (s : LightState) :
    Except Err InfoDict × LightState × List Request :=
  match s._info with
  | some cached => (.ok cached, s, [])
  | none =>
      match net.getInfo with
      | .error e => (.error e, s, [.getInfo])
      | .ok i => (.ok i, { s with _info := some i }, [.getInfo])

/-- `ElgatoLight.status` (lines 92-107): return the cached status, or fetch
from the light, extract `lights[0]`, convert its temperature to Kelvin,
cache it, and return a copy. -/
def status (conv : Converters) (net : Net) (s : LightState) :
    Except Err DictRet × LightState × List Request :=
  match s._status with
  | some cached => (.ok ⟨cached, false⟩, s, [])
  | none =>
      match net.getLights with
      | .error e => (.error e, s, [.getLights])
      | .ok resp =>
          match resp.lights with
          | [] => (.error "IndexError: list index out of range", s, [.getLights])
          | raw :: _ =>
              let st : Status := { raw with temperature := conv.v2t raw.temperature }
              (.ok ⟨st, false⟩, { s with _status := some st }, [.getLights])

/-- The partial dict built by `set_status` (lines 119-137): each supplied
field is checked against its own range; out-of-range values are dropped
(logged as an error in the source), in-range values are kept; the supplied
temperature is converted to a device value. -/
def buildNewStatus (conv : Converters) («on» brightness temperature : Option Int) :
    StatusDict :=
  let d0 : StatusDict := ⟨none, none, none⟩
  let d1 :=
    match «on» with
    | none => d0
    | some o => if o = 0 ∨ o = 1 then { d0 with «on» := some o } else d0
  let d2 :=
    match brightness with
    | none => d1
    | some b => if 0 ≤ b ∧ b ≤ 100 then { d1 with brightness := some b } else d1
  match temperature with
  | none => d2
  | some t =>
      if 2900 ≤ t ∧ t ≤ 7000 then { d2 with temperature := some (conv.t2v t) } else d2

/-- `ElgatoLight.set_status` (lines 109-145): build the validated partial
dict, wrap it as `{"numberOfLights": 1, "lights": [new_status]}`, PUT it to
the `lights` endpoint, then replace the whole status cache with the first
light of the response (temperature converted back to Kelvin) and return a
copy of it. -/
def set_status (conv : Converters) (net : Net) (s : LightState)
    («on» brightness temperature : Option Int) :
    Except Err Status × LightState × List Request :=
  let new_status := buildNewStatus conv «on» brightness temperature
  let data : LightsPayload := ⟨1, [new_status]⟩
  match net.putLights data with
  | .error e => (.error e, s, [.putLights data])
  | .ok resp =>
      match resp.lights with
      | [] => (.error "IndexError: list index out of range", s, [.putLights data])
      | raw :: _ =>
          let st : Status := { raw with temperature := conv.v2t raw.temperature }
          (.ok st, { s with _status := some st }, [.putLights data])

/-- `ElgatoLight.power_on` (lines 147-152): `set_status(on=1)`. -/
def power_on (conv : Converters) (net : Net) (s : LightState) :
    Except Err Unit × LightState × List Request :=
  match set_status conv net s (some 1) none none with
  | (.error e, s', log) => (.error e, s', log)
  | (.ok _, s', log) => (.ok (), s', log)

/-- `ElgatoLight.power_off` (lines 154-159): `set_status(on=0)`. -/
def power_off (conv : Converters) (net : Net) (s : LightState) :
    Except Err Unit × LightState × List Request :=
  match set_status conv net s (some 0) none none with
  | (.error e, s', log) => (.error e, s', log)
  | (.ok _, s', log) => (.ok (), s', log)

/-- `ElgatoLight.set_brightness` (lines 161-168): `set_status(brightness=b)`. -/
def set_brightness (conv : Converters) (net : Net) (s : LightState)
    (brightness : Int) : Except Err Unit × LightState × List Request :=
  match set_status conv net s none (some brightness) none with
  | (.error e, s', log) => (.error e, s', log)
  | (.ok _, s', log) => (.ok (), s', log)

/-- `ElgatoLight.set_temperature` (lines 186-192): `set_status(temperature=t)`. -/
def set_temperature (conv : Converters) (net : Net) (s : LightState)
    (temperature : Int) : Except Err Unit × LightState × List Request :=
  match set_status conv net s none none (some temperature) with
  | (.error e, s', log) => (.error e, s', log)
  | (.ok _, s', log) => (.ok (), s', log)

/-- The `if self._status is None: await self.status()` prelude shared by
`increment_brightness` (lines 176-177) and `increment_temperature`
(lines 201-202). -/
def ensureStatus (conv : Converters) (net : Net) (s : LightState) :
    Except Err Unit × LightState × List Request :=
  match s._status with
  | some _ => (.ok (), s, [])
  | none =>
      match status conv net s with
      | (.error e, s', log) => (.error e, s', log)
      | (.ok _, s', log) => (.ok (), s', log)

/-- `ElgatoLight.increment_brightness` (lines 170-184): ensure the status
cache is populated, add the increment to the cached brightness, clamp the
result into 0..100 by two sequential checks, and call `set_brightness`. -/
def increment_brightness (conv : Converters) (net : Net) (s : LightState)
    (increment : Int) : Except Err Unit × LightState × List Request :=
  match ensureStatus conv net s with
  | (.error e, s', log) => (.error e, s', log)
  | (.ok _, s', log) =>
      match s'._status with
      | none => (.error "TypeError: NoneType is not subscriptable", s', log)
      | some cur =>
          let nb0 := cur.brightness + increment
          let nb1 := if nb0 < 0 then 0 else nb0
          let nb2 := if nb1 > 100 then 100 else nb1
          match set_brightness conv net s' nb2 with
          | (r, s'', log') => (r, s'', log ++ log')

/-- `ElgatoLight.increment_temperature` (lines 194-209): ensure the status
cache is populated, add the increment to the cached temperature, clamp the
result into 2900..7000 by two sequential checks, and call `set_temperature`. -/
def increment_temperature (conv : Converters) (net : Net) (s : LightState)
    (increment : Int) : Except Err Unit × LightState × List Request :=
  match ensureStatus conv net s with
  | (.error e, s', log) => (.error e, s', log)
  | (.ok _, s', log) =>
      match s'._status with
      | none => (.error "TypeError: NoneType is not subscriptable", s', log)
      | some cur =>
          let nt0 := cur.temperature + increment
          let nt1 := if nt0 < 2900 then 2900 else nt0
          let nt2 := if nt1 > 7000 then 7000 else nt1
          match set_temperature conv net s' nt2 with
          | (r, s'', log') => (r, s'', log ++ log')

/-! ## Discovery (`discover`, lines 212-272) -/

/-- The connection details produced by resolving one advertised service
(`zeroconf_.get_service_info`): a raw IPv4 address (4 bytes), port, name and
server identifier. -/
structure ServiceInfo where
  address : List Nat
  port : Int
  name : String
  server : String
deriving Repr, DecidableEq

/-- `socket.inet_ntop(socket.AF_INET, address)` (line 263): raw bytes of an
IPv4 address rendered in dotted decimal. -/
def inet_ntop (address : List Nat) : String :=
  String.intercalate "." (address.map toString)

/-- The `ElgatoLight(...)` construction of lines 264-267: a fresh handle from
resolved connection details, caches empty. -/
def mkLightFromService (si : ServiceInfo) : LightState :=
  { address := inet_ntop si.address
    port := si.port
    name := si.name
    server := si.server
    _info := none
    _status := none }

/-- `MyListener.services` (lines 238-239):
`[await future for future in self.future_services]`. Each in-flight
resolution task is modelled by its eventual outcome (`Except`); awaiting a
failed task re-raises its exception, which aborts the comprehension. -/
def services : List (Except Err ServiceInfo) → Except Err (List ServiceInfo)
  | [] => .ok []
  | f :: rest =>
      match f with
      | .error e => .error e
      | .ok si =>
          match services rest with
          | .error e => .error e
          | .ok sis => .ok (si :: sis)

/-- The finalization phase of `discover` (lines 252-268): await all started
resolutions via `services`, then build one `ElgatoLight` per resolved record.
An exception from `services` propagates out of `discover` (after the
`finally` block has closed zeroconf), so no handles are returned. -/
def discoverFinalize (futures : List (Except Err ServiceInfo)) :
    Except Err (List LightState) :=
  match services futures with
  | .error e => .error e
  | .ok sis => .ok (sis.map mkLightFromService)

/-- The condition of the listening loop (line 249):
`(light_count is None or len(listener.future_services) < light_count) and
(time() - start) < timeout`. -/
def listenCond (light_count : Option Nat) (futures : Nat)
    (elapsed timeout : ℚ) : Bool :=
  (match light_count with
   | none => true
   | some c => decide (futures < c)) && decide (elapsed < timeout)

/-- The polling loop of lines 247-250, with explicit fuel. `futuresAt k` is
the number of resolution tasks started by the time of the k-th poll and
`elapsedAt k` the value of `time() - start` there (the reference
implementation sleeps 0.1s between polls, so `elapsedAt k ≈ k / 10`).
Returns the poll index at which the loop exits. -/
def listenLoop (fuel : Nat) (light_count : Option Nat) (timeout : ℚ)
    (futuresAt : Nat → Nat) (elapsedAt : Nat → ℚ) (k : Nat) : Nat :=
  match fuel with
  | 0 => k
  | fuel + 1 =>
      if listenCond light_count (futuresAt k) (elapsedAt k) timeout then
        listenLoop fuel light_count timeout futuresAt elapsedAt (k + 1)
      else k

/-- The conversion applied to every light entry taken from a response
(lines 105 and 144): replace the raw `temperature` by its Kelvin value. -/
def kelvinized (conv : Converters) (raw : Status) : Status :=
  { raw with temperature := conv.v2t raw.temperature }

/-- `s'` carries the same identity fields (address, port, name, server)
as `s`. -/
def sameIdentity (s s' : LightState) : Prop :=
  s'.address = s.address ∧ s'.port = s.port ∧ s'.name = s.name ∧
    s'.server = s.server

/-! ## Concrete fixtures for witnesses -/

/-- A concrete converter pair (witnesses only; all theorems hold for any). -/
def idConv : Converters := ⟨fun t => t, fun v => v⟩

/-- A transport that answers every request successfully with fixed data. -/
def okNet (resp : LightsResponse) : Net :=
  ⟨.ok resp, fun _ => .ok resp, .ok [("productName", "Elgato Key Light")]⟩

/-- A transport whose every request fails with the given error. -/
def failNet (e : Err) : Net := ⟨.error e, fun _ => .error e, .error e⟩

/-- A freshly constructed handle (both caches empty). -/
def baseState : LightState :=
  ⟨"192.168.0.2", 9123, "Elgato Key Light", "elgato.local.", none, none⟩

/-! ## Helper lemmas -/

/-- The two sequential range checks of `increment_brightness`
(lines 180-183) compute the integer clamp into [0, 100]. -/
theorem clampBrightness_eq (x : Int) :
    (if (if x < 0 then 0 else x) > 100 then 100 else if x < 0 then 0 else x) =
      min 100 (max 0 x) := by
  split_ifs <;> omega

/-- The two sequential range checks of `increment_temperature`
(lines 205-208) compute the integer clamp into [2900, 7000]. -/
theorem clampTemperature_eq (x : Int) :
    (if (if x < 2900 then 2900 else x) > 7000 then 7000
     else if x < 2900 then 2900 else x) = min 7000 (max 2900 x) := by
  split_ifs <;> omega

/-- The `on` entry of the partial dict depends only on the supplied `on`. -/
theorem buildNewStatus_on (conv : Converters) («on» b t : Option Int) :
    (buildNewStatus conv «on» b t).«on» =
      match «on» with
      | none => none
      | some o => if o = 0 ∨ o = 1 then some o else none := by
  cases «on» <;> cases b <;> cases t <;>
    simp only [buildNewStatus] <;> split_ifs <;> rfl

/-- The `brightness` entry of the partial dict depends only on the supplied
brightness. -/
theorem buildNewStatus_brightness (conv : Converters) («on» b t : Option Int) :
    (buildNewStatus conv «on» b t).brightness =
      match b with
      | none => none
      | some x => if 0 ≤ x ∧ x ≤ 100 then some x else none := by
  cases «on» <;> cases b <;> cases t <;>
    simp only [buildNewStatus] <;> split_ifs <;> rfl

/-- The `temperature` entry of the partial dict depends only on the supplied
temperature. -/
theorem buildNewStatus_temperature (conv : Converters) («on» b t : Option Int) :
    (buildNewStatus conv «on» b t).temperature =
      match t with
      | none => none
      | some x => if 2900 ≤ x ∧ x ≤ 7000 then some (conv.t2v x) else none := by
  cases «on» <;> cases b <;> cases t <;>
    simp only [buildNewStatus] <;> split_ifs <;> rfl

/-- `set_status` always issues exactly one PUT carrying the validated
partial dict, whatever the transport answers. -/
theorem set_status_log (conv : Converters) (net : Net) (s : LightState)
    («on» b t : Option Int) :
    (set_status conv net s «on» b t).2.2 =
      [.putLights ⟨1, [buildNewStatus conv «on» b t]⟩] := by
  simp only [set_status]
  split
  · rfl
  · split <;> rfl

/-! ## Claims -/

/-- C1: `set_status` validates each of the three optional fields
independently against its own range; an out-of-range field is dropped from
the outgoing request while valid fields in the same call are still included,
and the request is always sent (one PUT, never aborted). Concretely,
`brightness=150` is dropped while `temperature=4000` in the same call is
still applied. -/
theorem set_status_validates_fields_independently (conv : Converters)
    (net : Net) (s : LightState) («on» b t : Option Int) :
    ((set_status conv net s «on» b t).2.2 =
        [.putLights ⟨1, [buildNewStatus conv «on» b t]⟩]) ∧
    ((buildNewStatus conv «on» b t).«on» =
        match «on» with
        | none => none
        | some o => if o = 0 ∨ o = 1 then some o else none) ∧
    ((buildNewStatus conv «on» b t).brightness =
        match b with
        | none => none
        | some x => if 0 ≤ x ∧ x ≤ 100 then some x else none) ∧
    ((buildNewStatus conv «on» b t).temperature =
        match t with
        | none => none
        | some x => if 2900 ≤ x ∧ x ≤ 7000 then some (conv.t2v x) else none) ∧
    buildNewStatus idConv none (some 150) (some 4000) =
      ⟨none, none, some 4000⟩ :=
  ⟨set_status_log conv net s «on» b t,
   buildNewStatus_on conv «on» b t,
   buildNewStatus_brightness conv «on» b t,
   buildNewStatus_temperature conv «on» b t,
   by decide⟩

/-- C10: a `set_status` call whose every supplied field is invalid (or with
no fields supplied) still sends `{"numberOfLights": 1, "lights": [{}]}` to
the lights endpoint and, on success, still replaces the entire status cache
with the device's response — it is not a no-op. -/
theorem set_status_empty_update_not_noop (conv : Converters) (net : Net)
    (s : LightState) («on» b t : Option Int)
    (hon : «on» = none ∨ ∃ o, «on» = some o ∧ ¬(o = 0 ∨ o = 1))
    (hb : b = none ∨ ∃ x, b = some x ∧ ¬(0 ≤ x ∧ x ≤ 100))
    (ht : t = none ∨ ∃ x, t = some x ∧ ¬(2900 ≤ x ∧ x ≤ 7000))
    (resp : LightsResponse) (raw : Status) (rest : List Status)
    (hresp : net.putLights ⟨1, [⟨none, none, none⟩]⟩ = .ok resp)
    (hl : resp.lights = raw :: rest) :
    set_status conv net s «on» b t =
      (.ok (kelvinized conv raw),
       { s with _status := some (kelvinized conv raw) },
       [.putLights ⟨1, [⟨none, none, none⟩]⟩]) := by
  have hempty : buildNewStatus conv «on» b t = ⟨none, none, none⟩ := by
    have h1 := buildNewStatus_on conv «on» b t
    have h2 := buildNewStatus_brightness conv «on» b t
    have h3 := buildNewStatus_temperature conv «on» b t
    cases hh : buildNewStatus conv «on» b t with
    | mk x y z =>
        rw [hh] at h1 h2 h3
        rcases hon with rfl | ⟨o, rfl, ho⟩ <;>
          rcases hb with rfl | ⟨u, rfl, hu⟩ <;>
            rcases ht with rfl | ⟨v, rfl, hv⟩ <;>
              simp_all
  simp only [set_status, hempty, hresp, hl, kelvinized]

/-- C10 witness: an all-invalid call (`on=5`, `brightness=150`,
`temperature=100`) still PUTs the empty partial and replaces the cache. -/
theorem set_status_empty_update_not_noop_witness :
    set_status idConv (okNet ⟨[⟨1, 33, 285⟩]⟩)
        { baseState with _status := some ⟨0, 0, 0⟩ }
        (some 5) (some 150) (some 100) =
      (.ok ⟨1, 33, 285⟩,
       { baseState with _status := some ⟨1, 33, 285⟩ },
       [.putLights ⟨1, [⟨none, none, none⟩]⟩]) := by
  have h := set_status_empty_update_not_noop idConv (okNet ⟨[⟨1, 33, 285⟩]⟩)
    { baseState with _status := some ⟨0, 0, 0⟩ }
    (some 5) (some 150) (some 100)
    (Or.inr ⟨5, rfl, by decide⟩) (Or.inr ⟨150, rfl, by decide⟩)
    (Or.inr ⟨100, rfl, by decide⟩) ⟨[⟨1, 33, 285⟩]⟩ ⟨1, 33, 285⟩ [] rfl rfl
  exact h

/-- C8: a transport failure during `status` or `set_status` propagates to
the caller unchanged, with exactly one request issued (no retry), and the
handle's cached status is left exactly as it was before the call. -/
theorem transport_error_propagates (conv : Converters) (net : Net)
    (s : LightState) (e : Err) :
    (s._status = none → net.getLights = .error e →
      status conv net s = (.error e, s, [.getLights])) ∧
    (∀ «on» b t : Option Int,
      net.putLights ⟨1, [buildNewStatus conv «on» b t]⟩ = .error e →
      set_status conv net s «on» b t =
        (.error e, s, [.putLights ⟨1, [buildNewStatus conv «on» b t]⟩])) := by
  constructor
  · intro hs hg
    simp only [status, hs, hg]
  · intro o b t hp
    simp only [set_status, hp]

/-- C8 witness: with a failing transport, `status` on an empty cache and
`set_status` both return the error unchanged, issue one request, and leave
the state untouched. -/
theorem transport_error_propagates_witness :
    status idConv (failNet "Connection refused") baseState =
      (.error "Connection refused", baseState, [.getLights]) ∧
    set_status idConv (failNet "Connection refused") baseState
        none (some 50) none =
      (.error "Connection refused", baseState,
       [.putLights ⟨1, [buildNewStatus idConv none (some 50) none]⟩]) := by
  have h := transport_error_propagates idConv (failNet "Connection refused")
    baseState "Connection refused"
  exact ⟨h.1 rfl rfl, h.2 none (some 50) none rfl⟩

/-- C4: for every integer delta and every populated status cache,
`increment_brightness` is exactly a `set_brightness` call with
`clamp(currentBrightness + delta, 0, 100)`. -/
theorem increment_brightness_is_clamped_set (conv : Converters) (net : Net)
    (s : LightState) (cur : Status) (increment : Int)
    (h : s._status = some cur) :
    increment_brightness conv net s increment =
      set_brightness conv net s (min 100 (max 0 (cur.brightness + increment))) := by
  simp only [increment_brightness, ensureStatus, h, clampBrightness_eq]
  cases hsb : set_brightness conv net s (min 100 (max 0 (cur.brightness + increment))) with
  | mk r rest => cases rest with
    | mk s'' log' => simp

/-- C4 witness: `incrementBrightness(-1000)` from a cached status with
brightness 10 is a call to set brightness to exactly 0. -/
theorem increment_brightness_is_clamped_set_witness :
    ({ baseState with _status := some ⟨1, 10, 5000⟩ } : LightState)._status =
        some ⟨1, 10, 5000⟩ ∧
    increment_brightness idConv (okNet ⟨[⟨1, 0, 200⟩]⟩)
        { baseState with _status := some ⟨1, 10, 5000⟩ } (-1000) =
      set_brightness idConv (okNet ⟨[⟨1, 0, 200⟩]⟩)
        { baseState with _status := some ⟨1, 10, 5000⟩ } 0 := by
  refine ⟨rfl, ?_⟩
  have h := increment_brightness_is_clamped_set idConv (okNet ⟨[⟨1, 0, 200⟩]⟩)
    { baseState with _status := some ⟨1, 10, 5000⟩ } ⟨1, 10, 5000⟩ (-1000) rfl
  have he : min 100 (max 0 ((10 : Int) + -1000)) = 0 := by decide
  rw [he] at h
  exact h

/-- C5: for every integer delta and every populated status cache,
`increment_temperature` is exactly a `set_temperature` call with
`clamp(currentTemperatureKelvin + delta, 2900, 7000)`. -/
theorem increment_temperature_is_clamped_set (conv : Converters) (net : Net)
    (s : LightState) (cur : Status) (increment : Int)
    (h : s._status = some cur) :
    increment_temperature conv net s increment =
      set_temperature conv net s
        (min 7000 (max 2900 (cur.temperature + increment))) := by
  simp only [increment_temperature, ensureStatus, h, clampTemperature_eq]
  cases hst : set_temperature conv net s (min 7000 (max 2900 (cur.temperature + increment))) with
  | mk r rest => cases rest with
    | mk s'' log' => simp

/-- C5 witness: `incrementTemperature(+10000)` from a cached status with
temperature 6000 K is a call to set temperature to exactly 7000. -/
theorem increment_temperature_is_clamped_set_witness :
    ({ baseState with _status := some ⟨1, 10, 6000⟩ } : LightState)._status =
        some ⟨1, 10, 6000⟩ ∧
    increment_temperature idConv (okNet ⟨[⟨1, 0, 200⟩]⟩)
        { baseState with _status := some ⟨1, 10, 6000⟩ } 10000 =
      set_temperature idConv (okNet ⟨[⟨1, 0, 200⟩]⟩)
        { baseState with _status := some ⟨1, 10, 6000⟩ } 7000 := by
  refine ⟨rfl, ?_⟩
  have h := increment_temperature_is_clamped_set idConv (okNet ⟨[⟨1, 0, 200⟩]⟩)
    { baseState with _status := some ⟨1, 10, 6000⟩ } ⟨1, 10, 6000⟩ 10000 rfl
  have he : min 7000 (max 2900 ((6000 : Int) + 10000)) = 7000 := by decide
  rw [he] at h
  exact h

/-- Every successful `status` call returns a `.copy()` of the cache, never
the cache object itself (lines 104-107). -/
theorem status_returns_copy (conv : Converters) (net : Net) (s : LightState)
    (r : DictRet) (h : (status conv net s).1 = .ok r) :
    r.sharesCache = false := by
  cases hs : s._status with
  | some c =>
      simp only [status, hs] at h
      injection h with h1
      rw [← h1]
  | none =>
      cases hg : net.getLights with
      | error e => simp [status, hs, hg] at h
      | ok resp =>
          cases hl : resp.lights with
          | nil => simp [status, hs, hg, hl] at h
          | cons raw rest =>
              simp only [status, hs, hg, hl] at h
              injection h with h1
              rw [← h1]

/-- C6: with an empty cache and a successful transport, the first `status`
call issues exactly one network read and stores the Kelvin-converted first
light entry; the second call issues no read and serves the same value from
the cache; and every successful return is a defensive copy, so that a
caller mutating the returned dict never changes the handle's cache. -/
theorem status_cached_and_copies (conv : Converters) (net : Net)
    (s : LightState) (resp : LightsResponse) (raw : Status)
    (rest : List Status) (hs : s._status = none)
    (hg : net.getLights = .ok resp) (hl : resp.lights = raw :: rest) :
    (status conv net s).2.2 = [.getLights] ∧
    (status conv net s).1 = .ok ⟨kelvinized conv raw, false⟩ ∧
    (status conv net s).2.1._status = some (kelvinized conv raw) ∧
    (status conv net ((status conv net s).2.1)).2.2 = [] ∧
    (status conv net ((status conv net s).2.1)).1 =
      .ok ⟨kelvinized conv raw, false⟩ ∧
    (∀ (s' : LightState) (r : DictRet) (f : Status → Status),
      (status conv net s').1 = .ok r →
      (mutateReturned f r ((status conv net s').2.1)).2 =
        (status conv net s').2.1) := by
  have hfirst : status conv net s =
      (.ok ⟨kelvinized conv raw, false⟩,
       { s with _status := some (kelvinized conv raw) }, [.getLights]) := by
    simp only [status, hs, hg, hl, kelvinized]
  refine ⟨by rw [hfirst], by rw [hfirst], by rw [hfirst],
          by rw [hfirst]; simp [status], by rw [hfirst]; simp [status],
          ?_⟩
  intro s' r f h
  have hc := status_returns_copy conv net s' r h
  simp [mutateReturned, hc]

/-- C6 witness: a concrete handle with empty cache, read twice over a
transport answering `{"lights": [{"on": 1, "brightness": 20, "temperature":
250}]}`. -/
theorem status_cached_and_copies_witness :
    (status idConv (okNet ⟨[⟨1, 20, 250⟩]⟩) baseState).2.2 = [.getLights] ∧
    (status idConv (okNet ⟨[⟨1, 20, 250⟩]⟩) baseState).1 =
      .ok ⟨kelvinized idConv ⟨1, 20, 250⟩, false⟩ ∧
    (status idConv (okNet ⟨[⟨1, 20, 250⟩]⟩) baseState).2.1._status =
      some (kelvinized idConv ⟨1, 20, 250⟩) ∧
    (status idConv (okNet ⟨[⟨1, 20, 250⟩]⟩)
      ((status idConv (okNet ⟨[⟨1, 20, 250⟩]⟩) baseState).2.1)).2.2 = [] ∧
    (status idConv (okNet ⟨[⟨1, 20, 250⟩]⟩)
      ((status idConv (okNet ⟨[⟨1, 20, 250⟩]⟩) baseState).2.1)).1 =
      .ok ⟨kelvinized idConv ⟨1, 20, 250⟩, false⟩ ∧
    (∀ (s' : LightState) (r : DictRet) (f : Status → Status),
      (status idConv (okNet ⟨[⟨1, 20, 250⟩]⟩) s').1 = .ok r →
      (mutateReturned f r
        ((status idConv (okNet ⟨[⟨1, 20, 250⟩]⟩) s').2.1)).2 =
        (status idConv (okNet ⟨[⟨1, 20, 250⟩]⟩) s').2.1) :=
  status_cached_and_copies idConv (okNet ⟨[⟨1, 20, 250⟩]⟩) baseState
    ⟨[⟨1, 20, 250⟩]⟩ ⟨1, 20, 250⟩ [] rfl rfl rfl

theorem sameIdentity_refl (s : LightState) : sameIdentity s s :=
  ⟨rfl, rfl, rfl, rfl⟩

theorem sameIdentity_trans {a b c : LightState}
    (h1 : sameIdentity a b) (h2 : sameIdentity b c) : sameIdentity a c := by
  obtain ⟨x1, x2, x3, x4⟩ := h1
  obtain ⟨y1, y2, y3, y4⟩ := h2
  exact ⟨y1.trans x1, y2.trans x2, y3.trans x3, y4.trans x4⟩

/-- `info` only touches the `_info` cache. -/
theorem info_sameIdentity (net : Net) (s : LightState) :
    sameIdentity s (info net s).2.1 := by
  cases hi : s._info with
  | some c => simp only [info, hi]; exact sameIdentity_refl s
  | none =>
      cases hg : net.getInfo with
      | error e => simp only [info, hi, hg]; exact sameIdentity_refl s
      | ok i => simp only [info, hi, hg]; exact ⟨rfl, rfl, rfl, rfl⟩

/-- `status` only touches the `_status` cache. -/
theorem status_sameIdentity (conv : Converters) (net : Net) (s : LightState) :
    sameIdentity s (status conv net s).2.1 := by
  cases hs : s._status with
  | some c => simp only [status, hs]; exact sameIdentity_refl s
  | none =>
      cases hg : net.getLights with
      | error e => simp only [status, hs, hg]; exact sameIdentity_refl s
      | ok resp =>
          cases hl : resp.lights with
          | nil => simp only [status, hs, hg, hl]; exact sameIdentity_refl s
          | cons raw rest =>
              simp only [status, hs, hg, hl]; exact ⟨rfl, rfl, rfl, rfl⟩

/-- `set_status` only touches the `_status` cache. -/
theorem set_status_sameIdentity (conv : Converters) (net : Net)
    (s : LightState) («on» b t : Option Int) :
    sameIdentity s (set_status conv net s «on» b t).2.1 := by
  cases hp : net.putLights ⟨1, [buildNewStatus conv «on» b t]⟩ with
  | error e => simp only [set_status, hp]; exact sameIdentity_refl s
  | ok resp =>
      cases hl : resp.lights with
      | nil => simp only [set_status, hp, hl]; exact sameIdentity_refl s
      | cons raw rest =>
          simp only [set_status, hp, hl]; exact ⟨rfl, rfl, rfl, rfl⟩

theorem power_on_sameIdentity (conv : Converters) (net : Net)
    (s : LightState) : sameIdentity s (power_on conv net s).2.1 := by
  have h := set_status_sameIdentity conv net s (some 1) none none
  cases hss : set_status conv net s (some 1) none none with
  | mk r rest =>
      cases rest with
      | mk s' log =>
          rw [hss] at h
          cases r with
          | error e => simp only [power_on, hss]; exact h
          | ok u => simp only [power_on, hss]; exact h

theorem power_off_sameIdentity (conv : Converters) (net : Net)
    (s : LightState) : sameIdentity s (power_off conv net s).2.1 := by
  have h := set_status_sameIdentity conv net s (some 0) none none
  cases hss : set_status conv net s (some 0) none none with
  | mk r rest =>
      cases rest with
      | mk s' log =>
          rw [hss] at h
          cases r with
          | error e => simp only [power_off, hss]; exact h
          | ok u => simp only [power_off, hss]; exact h

theorem set_brightness_sameIdentity (conv : Converters) (net : Net)
    (s : LightState) (b : Int) :
    sameIdentity s (set_brightness conv net s b).2.1 := by
  have h := set_status_sameIdentity conv net s none (some b) none
  cases hss : set_status conv net s none (some b) none with
  | mk r rest =>
      cases rest with
      | mk s' log =>
          rw [hss] at h
          cases r with
          | error e => simp only [set_brightness, hss]; exact h
          | ok u => simp only [set_brightness, hss]; exact h

theorem set_temperature_sameIdentity (conv : Converters) (net : Net)
    (s : LightState) (t : Int) :
    sameIdentity s (set_temperature conv net s t).2.1 := by
  have h := set_status_sameIdentity conv net s none none (some t)
  cases hss : set_status conv net s none none (some t) with
  | mk r rest =>
      cases rest with
      | mk s' log =>
          rw [hss] at h
          cases r with
          | error e => simp only [set_temperature, hss]; exact h
          | ok u => simp only [set_temperature, hss]; exact h

theorem ensureStatus_sameIdentity (conv : Converters) (net : Net)
    (s : LightState) : sameIdentity s (ensureStatus conv net s).2.1 := by
  have h := status_sameIdentity conv net s
  cases hs : s._status with
  | some c => simp only [ensureStatus, hs]; exact sameIdentity_refl s
  | none =>
      cases hst : status conv net s with
      | mk r rest =>
          cases rest with
          | mk s' log =>
              rw [hst] at h
              cases r with
              | error e => simp only [ensureStatus, hs, hst]; exact h
              | ok u => simp only [ensureStatus, hs, hst]; exact h

theorem increment_brightness_sameIdentity (conv : Converters) (net : Net)
    (s : LightState) (inc : Int) :
    sameIdentity s (increment_brightness conv net s inc).2.1 := by
  have h := ensureStatus_sameIdentity conv net s
  cases he : ensureStatus conv net s with
  | mk r rest =>
      cases rest with
      | mk s' log =>
          rw [he] at h
          cases r with
          | error e => simp only [increment_brightness, he]; exact h
          | ok u =>
              cases hs' : s'._status with
              | none => simp only [increment_brightness, he, hs']; exact h
              | some cur =>
                  have h2 := set_brightness_sameIdentity conv net s'
                    (if (if cur.brightness + inc < 0 then 0
                         else cur.brightness + inc) > 100 then 100
                     else if cur.brightness + inc < 0 then 0
                          else cur.brightness + inc)
                  cases hsb : set_brightness conv net s'
                      (if (if cur.brightness + inc < 0 then 0
                           else cur.brightness + inc) > 100 then 100
                       else if cur.brightness + inc < 0 then 0
                            else cur.brightness + inc) with
                  | mk r2 rest2 =>
                      cases rest2 with
                      | mk s'' log2 =>
                          rw [hsb] at h2
                          simp only [increment_brightness, he, hs', hsb]
                          exact sameIdentity_trans h h2

theorem increment_temperature_sameIdentity (conv : Converters) (net : Net)
    (s : LightState) (inc : Int) :
    sameIdentity s (increment_temperature conv net s inc).2.1 := by
  have h := ensureStatus_sameIdentity conv net s
  cases he : ensureStatus conv net s with
  | mk r rest =>
      cases rest with
      | mk s' log =>
          rw [he] at h
          cases r with
          | error e => simp only [increment_temperature, he]; exact h
          | ok u =>
              cases hs' : s'._status with
              | none => simp only [increment_temperature, he, hs']; exact h
              | some cur =>
                  have h2 := set_temperature_sameIdentity conv net s'
                    (if (if cur.temperature + inc < 2900 then 2900
                         else cur.temperature + inc) > 7000 then 7000
                     else if cur.temperature + inc < 2900 then 2900
                          else cur.temperature + inc)
                  cases hst : set_temperature conv net s'
                      (if (if cur.temperature + inc < 2900 then 2900
                           else cur.temperature + inc) > 7000 then 7000
                       else if cur.temperature + inc < 2900 then 2900
                            else cur.temperature + inc) with
                  | mk r2 rest2 =>
                      cases rest2 with
                      | mk s'' log2 =>
                          rw [hst] at h2
                          simp only [increment_temperature, he, hs', hst]
                          exact sameIdentity_trans h h2

/-- C9: the identity fields of a handle (address, port, display name,
server identifier) are assigned at construction and unchanged by every
subsequent operation: `info`, `status`, `set_status`, `power_on`,
`power_off`, `set_brightness`, `increment_brightness`, `set_temperature`
and `increment_temperature`. -/
theorem identity_fields_immutable (conv : Converters) (net : Net)
    (s : LightState) («on» b t : Option Int) (bv tv inc inc' : Int) :
    sameIdentity s (info net s).2.1 ∧
    sameIdentity s (status conv net s).2.1 ∧
    sameIdentity s (set_status conv net s «on» b t).2.1 ∧
    sameIdentity s (power_on conv net s).2.1 ∧
    sameIdentity s (power_off conv net s).2.1 ∧
    sameIdentity s (set_brightness conv net s bv).2.1 ∧
    sameIdentity s (increment_brightness conv net s inc).2.1 ∧
    sameIdentity s (set_temperature conv net s tv).2.1 ∧
    sameIdentity s (increment_temperature conv net s inc').2.1 :=
  ⟨info_sameIdentity net s,
   status_sameIdentity conv net s,
   set_status_sameIdentity conv net s «on» b t,
   power_on_sameIdentity conv net s,
   power_off_sameIdentity conv net s,
   set_brightness_sameIdentity conv net s bv,
   increment_brightness_sameIdentity conv net s inc,
   set_temperature_sameIdentity conv net s tv,
   increment_temperature_sameIdentity conv net s inc'⟩


/-- Awaiting the list comprehension of `MyListener.services` re-raises the
first failed future, however many resolutions succeeded before or after it. -/
theorem services_first_error (pre : List ServiceInfo) (e : Err)
    (rest : List (Except Err ServiceInfo)) :
    services (pre.map Except.ok ++ Except.error e :: rest) = .error e := by
  induction pre with
  | nil => rfl
  | cons si pre ih =>
      simp only [List.map, List.cons_append, services, List.append_eq, ih]

/-- C2 counterexample: with one successfully resolved record and one failed
resolution task, `discover`'s finalization does not return the successful
handle — the whole call fails with the resolution error. -/
theorem discoverFinalize_aborts_on_one_failure :
    discoverFinalize
        [Except.ok ⟨[192, 168, 0, 2], 9123, "Light._elg._tcp.local.", "elgato.local."⟩,
         Except.error "resolution failed"] =
      .error "resolution failed" ∧
    discoverFinalize
        [Except.ok ⟨[192, 168, 0, 2], 9123, "Light._elg._tcp.local.", "elgato.local."⟩,
         Except.error "resolution failed"] ≠
      .ok [mkLightFromService
            ⟨[192, 168, 0, 2], 9123, "Light._elg._tcp.local.", "elgato.local."⟩] :=
  ⟨rfl, fun h => Except.noConfusion h⟩

/-- C2 amended: the failure of one individual resolution task aborts the
overall discovery — `services` re-raises the first failed task's exception,
`discover` propagates it, and no handles are assembled, regardless of how
many resolutions succeeded before the failing one or remain after it. -/
theorem discoverFinalize_error_propagates (pre : List ServiceInfo) (e : Err)
    (rest : List (Except Err ServiceInfo)) :
    discoverFinalize (pre.map Except.ok ++ Except.error e :: rest) =
      .error e := by
  simp only [discoverFinalize, services_first_error]

/-- The listening loop's continuation condition (`listenCond`) rephrased as
a proposition. -/
theorem listenCond_iff (lc : Option Nat) (fu : Nat) (el tout : ℚ) :
    listenCond lc fu el tout = true ↔
      ((lc = none ∨ ∃ c, lc = some c ∧ fu < c) ∧ el < tout) := by
  cases lc with
  | none => simp [listenCond]
  | some c => simp [listenCond]

/-- Every poll strictly before the loop's exit poll satisfied the
continuation condition. -/
theorem listenLoop_invariant (fuel : Nat) (lc : Option Nat) (tout : ℚ)
    (f : Nat → Nat) (e : Nat → ℚ) :
    ∀ k j, k ≤ j → j < listenLoop fuel lc tout f e k →
      listenCond lc (f j) (e j) tout = true := by
  induction fuel with
  | zero =>
      intro k j hkj hj
      simp only [listenLoop] at hj
      omega
  | succ fuel ih =>
      intro k j hkj hj
      simp only [listenLoop] at hj
      by_cases hc : listenCond lc (f k) (e k) tout = true
      · rw [if_pos hc] at hj
        rcases Nat.eq_or_lt_of_le hkj with rfl | hlt
        · exact hc
        · exact ih (k + 1) j hlt hj
      · rw [if_neg hc] at hj
        omega

/-- If the loop exits before running out of fuel, the continuation
condition is false at the exit poll. -/
theorem listenLoop_exit_cond (fuel : Nat) (lc : Option Nat) (tout : ℚ)
    (f : Nat → Nat) (e : Nat → ℚ) :
    ∀ k, listenLoop fuel lc tout f e k < k + fuel →
      listenCond lc (f (listenLoop fuel lc tout f e k))
        (e (listenLoop fuel lc tout f e k)) tout = false := by
  induction fuel with
  | zero =>
      intro k hk
      simp only [listenLoop] at hk
      omega
  | succ fuel ih =>
      intro k hk
      simp only [listenLoop] at hk ⊢
      by_cases hc : listenCond lc (f k) (e k) tout = true
      · rw [if_pos hc] at hk ⊢
        exact ih (k + 1) (by omega)
      · rw [if_neg hc] at hk ⊢
        exact Bool.not_eq_true _ ▸ hc

/-- C7: the listening loop persists exactly while `(light_count is unset OR
fewer than light_count resolutions have been started) AND elapsed < timeout`
— every poll before the exit satisfied that condition and, fuel permitting,
the exit poll falsified it. Consequently with `light_count=2, timeout=5`,
polls every 0.1 s and at least two resolutions started from poll 10 (t=1 s)
onward, the loop exits by poll 10, well before the 5-second timeout. -/
theorem listening_loop_race (fuel : Nat) (lc : Option Nat) (tout : ℚ)
    (f : Nat → Nat) (e : Nat → ℚ) :
    (∀ j, j < listenLoop fuel lc tout f e 0 →
      ((lc = none ∨ ∃ c, lc = some c ∧ f j < c) ∧ e j < tout)) ∧
    (listenLoop fuel lc tout f e 0 < fuel →
      listenCond lc (f (listenLoop fuel lc tout f e 0))
        (e (listenLoop fuel lc tout f e 0)) tout = false) ∧
    ((∀ j, 10 ≤ j → 2 ≤ f j) → (∀ j, e j = (j : ℚ) / 10) →
      listenLoop fuel (some 2) 5 f e 0 ≤ 10 ∧
      e (listenLoop fuel (some 2) 5 f e 0) < 5) := by
  refine ⟨?_, ?_, ?_⟩
  · intro j hj
    exact (listenCond_iff lc (f j) (e j) tout).mp
      (listenLoop_invariant fuel lc tout f e 0 j (Nat.zero_le j) hj)
  · intro hfuel
    exact listenLoop_exit_cond fuel lc tout f e 0 (by omega)
  · intro hf he
    have hle : listenLoop fuel (some 2) 5 f e 0 ≤ 10 := by
      by_contra hgt
      push_neg at hgt
      have hcond := listenLoop_invariant fuel (some 2) 5 f e 0 10
        (Nat.zero_le 10) hgt
      rw [listenCond_iff] at hcond
      rcases hcond.1 with h | ⟨c, hc, hlt⟩
      · exact Option.noConfusion h
      · have : c = 2 := by injection hc with hc2; omega
        have := hf 10 (le_refl 10)
        omega
    refine ⟨hle, ?_⟩
    rw [he]
    have h10 : ((listenLoop fuel (some 2) 5 f e 0 : ℚ)) ≤ 10 := by
      exact_mod_cast hle
    linarith

/-- C7 witness: with two resolutions already started at every poll, the loop
exits immediately rather than waiting toward the timeout. -/
theorem listening_loop_race_witness :
    listenLoop 60 (some 2) 5 (fun _ => 2) (fun j => (j : ℚ) / 10) 0 ≤ 10 ∧
    (fun j => (j : ℚ) / 10)
        (listenLoop 60 (some 2) 5 (fun _ => 2) (fun j => (j : ℚ) / 10) 0) <
      5 :=
  (listening_loop_race 60 (some 2) 5 (fun _ => 2)
    (fun j => (j : ℚ) / 10)).2.2 (fun _ _ => le_refl 2) (fun _ => rfl)

end Elgato
